import Mathlib

/-!
Shallow embedding of `src/core/universal_file_analyzer.py`
(class `MIRACATECHFileAnalyzer`) and proofs about it.

Modelling conventions:
* file content (`bytes`) is a `List Nat`;
* external library hash functions (`hashlib.sha256(...).hexdigest()`,
  `hashlib.md5(...).hexdigest()`) are parameters of type `Bytes → String`;
* filesystem and parsing libraries (`os.stat`, `open(...).read()`,
  `json.load`, `csv.reader`) are modelled by a `FileData` record that carries
  the stat results, the raw bytes, and the outcome (`Except`) of each
  library parse: a Python exception raised by a library call is the
  `Except.error` carrying its message;
* Python floats that the code only ever fills with exact dyadic values are
  modelled as `ℚ`;
* timestamps are opaque `Nat` epoch values (`datetime.fromtimestamp`
  formatting is not modelled, the claims never mention it).
-/

namespace Miracatech

/-- Byte strings: each entry is one byte. -/
abbrev Bytes := List Nat

/-- Result of `json.load`: a Python JSON value. -/
inductive JsonVal where
  | obj : List (String × JsonVal) → JsonVal
  | arr : List JsonVal → JsonVal
  | str : String → JsonVal
  | num : Int → JsonVal
  | boolean : Bool → JsonVal
  | null : JsonVal

/-- Python `type(v).__name__` for a JSON value produced by `json.load`. -/
def pyTypeName : JsonVal → String
  | .obj _ => "dict"
  | .arr _ => "list"
  | .str _ => "str"
  | .num _ => "int"
  | .boolean _ => "bool"
  | .null => "NoneType"

/-- Splitting a character list at every occurrence of `sep`, no collapsing
of adjacent separators: the semantics of Python `str.split(sep)` for a
one-character separator (a trailing separator yields a trailing empty
piece, the empty string yields one empty piece). -/
def splitCharAux (sep : Char) : List Char → List (List Char)
  | [] => [[]]
  | c :: cs =>
    match splitCharAux sep cs with
    | [] => [[]]
    | g :: gs => if c = sep then [] :: g :: gs else (c :: g) :: gs

/-- Python `s.split(sep)` for a one-character separator. -/
def pySplit (s : String) (sep : Char) : List String :=
  (splitCharAux sep s.data).map (fun g => ⟨g⟩)

/-- Python `str.isspace` characters in the ASCII range (the inputs the
claims exercise contain no non-ASCII whitespace). -/
def isPyWhitespace (c : Char) : Bool :=
  c = ' ' ∨ c = '\t' ∨ c = '\n' ∨ c = '\r'
    ∨ c = Char.ofNat 11 ∨ c = Char.ofNat 12

/-- Python `s.strip()`: remove leading and trailing whitespace. -/
def pyStrip (s : String) : String :=
  ⟨((s.data.dropWhile isPyWhitespace).reverse.dropWhile
      isPyWhitespace).reverse⟩

/-- Python `s.startswith('#')`: the first character is `'#'`. -/
def pyStartsWithHash (s : String) : Bool :=
  match s.data with
  | [] => false
  | c :: _ => c = '#'

/-- Python `s.lower()` on the ASCII extension strings this code handles. -/
def pyLower (s : String) : String := ⟨s.data.map Char.toLower⟩

/-- The `details` sub-dictionary of the INSIGHT result: its key set depends on
the dispatched extension (`{}` by default). -/
inductive Details where
  | empty : Details
  | jsonD (consciousness_keys : Nat) (awareness_depth : Nat)
      (energy_types : List String) : Details
  | csvD (data_dimensions : Nat) (consciousness_records : Nat)
      (energy_headers : List String) : Details
  | codeD (consciousness_lines : Nat) (total_expressions : Nat)
      (wisdom_comments : Nat) : Details
deriving DecidableEq, Repr

/-- Return value of `_analyze_internal_structure` (the Structural
Summarizer).  The Python function builds `result` as a dict with the four
base keys and optionally adds an `"error"` key in the `except` branch; the
optional key is the `error` field here. -/
structure InsightResult where
  internal_coherence : Bool
  structural_integrity : Nat
  consciousness_depth : Nat
  details : Details
  error : Option String
deriving DecidableEq, Repr

/-- One file as the filesystem and the parsing libraries present it:
`os.stat` fields, `Path(file_path).name` / `.suffix`,
`mimetypes.guess_type`, the raw bytes from `open(path, 'rb').read()`, and
the outcome of each library parse of the content (`open(path, 'r').read()`,
`json.load`, `list(csv.reader(f))`); `.error msg` is the raised exception's
message. -/
structure FileData where
  name : String
  suffix : String
  st_size : Nat
  st_ctime : Nat
  st_mtime : Nat
  mime_type : Option String
  encoding : Option String
  bytes : Bytes
  textRead : Except String String
  jsonParse : Except String JsonVal
  csvParse : Except String (List (List String))

/-- Python `len(data) if isinstance(data, dict) else 0`. -/
def jsonKeyCount : JsonVal → Nat
  | .obj kvs => kvs.length
  | _ => 0

/-- Python `list(set(type(v).__name__ for v in data.values())) if
isinstance(data, dict) else []`; the arbitrary `set` iteration order is
modelled as first-occurrence order. -/
def energyTypes : JsonVal → List String
  | .obj kvs => (kvs.map (fun kv => pyTypeName kv.2)).dedup
  | _ => []

/-- `_calculate_json_consciousness(data)`: constant stub. -/
def calculate_json_consciousness (_data : JsonVal) : Nat := 1

/-- `_get_consciousness_depth(data)`: constant stub. -/
def get_consciousness_depth (_data : JsonVal) : Nat := 1

/-- `_get_json_depth(data)`: constant stub. -/
def get_json_depth (_data : JsonVal) : Nat := 1

/-- `_calculate_code_consciousness(code)`: `len(code.split('\n'))`. -/
def calculate_code_consciousness (code : String) : Nat :=
  (pySplit code '\n').length

/-- `_analyze_internal_structure` (INSIGHT, the Structural Summarizer).
Dispatch is on `file_info["extension"]` (already lower-cased); each branch's
`try` body opens and parses the file, and any raised exception is caught by
the single `except`, which sets `internal_coherence = False` and stores the
message under `"error"`. -/
def analyze_internal_structure (extension : String) (fd : FileData) :
    InsightResult :=
  let base : InsightResult :=
    { internal_coherence := true
      structural_integrity := 0
      consciousness_depth := 0
      details := .empty
      error := none }
  if extension = ".json" then
    match fd.jsonParse with
    | .error e => { base with internal_coherence := false, error := some e }
    | .ok data =>
        { base with
          structural_integrity := calculate_json_consciousness data
          consciousness_depth := get_consciousness_depth data
          details := .jsonD (jsonKeyCount data) (get_json_depth data)
            (energyTypes data) }
  else if extension = ".csv" then
    match fd.csvParse with
    | .error e => { base with internal_coherence := false, error := some e }
    | .ok rows =>
        { base with
          structural_integrity := (rows.headD []).length
          consciousness_depth := rows.length
          details := .csvD (rows.headD []).length rows.length
            (rows.headD []) }
  else if extension = ".py" ∨ extension = ".js" ∨ extension = ".sol" then
    match fd.textRead with
    | .error e => { base with internal_coherence := false, error := some e }
    | .ok code =>
        let lines := pySplit code '\n'
        { base with
          structural_integrity := lines.length
          consciousness_depth := calculate_code_consciousness code
          details := .codeD
            (lines.filter (fun line => pyStrip line ≠ "")).length
            lines.length
            (lines.filter (fun line => pyStartsWithHash (pyStrip line))).length }
  else base

/-- Python string slice `s[:n]` (clamping). -/
def strTake (n : Nat) (s : String) : String := ⟨s.data.take n⟩

/-- Python string slice `s[-n:]` (the last `n` characters; the whole string
when it is shorter than `n`). -/
def strLast (n : Nat) (s : String) : String :=
  ⟨s.data.drop (s.data.length - n)⟩

/-- Value of one hex digit, `none` for a non-hex character. -/
def hexDigitVal : Char → Option Nat
  | c =>
    if '0' ≤ c ∧ c ≤ '9' then some (c.toNat - '0'.toNat)
    else if 'a' ≤ c ∧ c ≤ 'f' then some (c.toNat - 'a'.toNat + 10)
    else if 'A' ≤ c ∧ c ≤ 'F' then some (c.toNat - 'A'.toNat + 10)
    else none

/-- Python `int(s, 16)` on a plain digit string: `none` models the
`ValueError` raised on an empty string or a non-hex character. -/
def hexToNat (s : String) : Option Nat :=
  if s.data = [] then none
  else s.data.foldl
    (fun acc c => acc.bind (fun a => (hexDigitVal c).map (fun d => 16 * a + d)))
    (some 0)

/-- `s` is made of hex digits only. -/
def IsHexStr (s : String) : Prop :=
  ∀ c ∈ s.data, (hexDigitVal c).isSome = true

instance (s : String) : Decidable (IsHexStr s) := by
  unfold IsHexStr; infer_instance

/-- `_calculate_quadundrum_signature(content)`: `quarter_size = len(content)
// 4`; the i-th chunk is the slice `content[i*quarter_size :
(i+1)*quarter_size]` (here `drop` then `take`, with the same clamping
semantics); each chunk is hashed with `md5hex` (the model of
`hashlib.md5(chunk).hexdigest()`), truncated to 8 characters, and the four
pieces are joined with `"-"`. -/
def calculate_quadundrum_signature (md5hex : Bytes → String)
    (content : Bytes) : String :=
  let quarter_size := content.length / 4
  let signatures := (List.range 4).map (fun i =>
    strTake 8 (md5hex ((content.drop (i * quarter_size)).take quarter_size)))
  String.intercalate "-" signatures

/-- Python `f"{q:.1f}"` for the nonnegative exact dyadic rationals this code
produces: one decimal digit, rounding to nearest.  Known infidelity: ties
round up here, while Python rounds the underlying double half-to-even, so
the two differ exactly at ties of the tenths digit (e.g. 1280 bytes:
Python prints `"1.2 KB"`, this model `"1.3 KB"`).  No theorem below
evaluates the function at a tie. -/
def fmtOneDecimal (q : ℚ) : String :=
  let t := (⌊q * 10 + 1 / 2⌋).toNat
  Nat.repr (t / 10) ++ "." ++ Nat.repr (t % 10)

/-- The loop body of `_format_file_size`: try each unit in order, dividing
by 1024, and fall through to `"TB"` after the list is exhausted. -/
def format_file_size_aux : ℚ → List String → String
  | size_bytes, [] => fmtOneDecimal size_bytes ++ " TB"
  | size_bytes, unit :: units =>
    if size_bytes < 1024 then fmtOneDecimal size_bytes ++ " " ++ unit
    else format_file_size_aux (size_bytes / 1024) units

/-- `_format_file_size(size_bytes)`. -/
def format_file_size (size_bytes : Nat) : String :=
  format_file_size_aux (size_bytes : ℚ) ["bytes", "KB", "MB", "GB"]

/-- The dictionary returned by `_get_consciousness_metadata`. -/
structure FileInfo where
  name : String
  extension : String
  size_bytes : Nat
  size_human : String
  created : Nat
  modified : Nat
  mime_type : Option String
  encoding : Option String
  consciousness_hash : String
  resonance_frequency : Nat
  path : String
  quadundrum_signature : String
deriving DecidableEq, Repr

/-- `_get_consciousness_metadata(file_path)`: stats the file, reads the
bytes, and fills the metadata dict.  `sha256hex` models
`hashlib.sha256(file_content).hexdigest()`. -/
def get_consciousness_metadata (sha256hex md5hex : Bytes → String)
    (file_path : String) (fd : FileData) : FileInfo :=
  { name := fd.name
    extension := pyLower fd.suffix
    size_bytes := fd.st_size
    size_human := format_file_size fd.st_size
    created := fd.st_ctime
    modified := fd.st_mtime
    mime_type := fd.mime_type
    encoding := fd.encoding
    consciousness_hash := sha256hex fd.bytes
    resonance_frequency := fd.bytes.length % 432
    path := file_path
    quadundrum_signature := calculate_quadundrum_signature md5hex fd.bytes }

/-- `_calculate_equinox_resonance(file_info)`:
`(size % 320)/320`, `int(hash[-4:], 16) % 432 / 432` (Python precedence:
the mod binds before the division) and `resonance_frequency / 432`,
averaged.  `none` models the uncaught `ValueError` of `int` when the last
four characters of the hash are not hex digits (impossible for a real
SHA-256 digest). -/
def calculate_equinox_resonance (file_info : FileInfo) : Option ℚ :=
  (hexToNat (strLast 4 file_info.consciousness_hash)).map (fun h =>
    let size_resonance : ℚ := ((file_info.size_bytes % 320 : ℕ) : ℚ) / 320
    let hash_resonance : ℚ := ((h % 432 : ℕ) : ℚ) / 432
    let frequency_resonance : ℚ := (file_info.resonance_frequency : ℚ) / 432
    (size_resonance + hash_resonance + frequency_resonance) / 3)

/-- The four quadundrum position results.  `_analyze_external_patterns`,
`_analyze_meta_relationships` and `_analyze_consciousness_core` build dicts
whose entries all come from constant helper stubs; only `insight` carries
computed structure. -/
inductive PosResult where
  | outsight (external_compatibility market_relevance industry_standards
      ecosystem_integration : String) : PosResult
  | insight (r : InsightResult) : PosResult
  | overview (system_relationships : List (String × String))
      (pattern_recognition : List String)
      (consciousness_connections : List (String × String))
      (holistic_assessment : String) : PosResult
  | innerview (quantum_signature : String) (consciousness_resonance : ℚ)
      (transcendent_patterns : List String)
      (unity_field_analysis : String) : PosResult
deriving DecidableEq, Repr

/-- `_analyze_external_patterns` (OUTSIGHT): ignores both arguments, every
entry is a constant stub. -/
def analyze_external_patterns : PosResult :=
  .outsight "high" "significant" "compliant" "excellent"

/-- `_analyze_meta_relationships` (OVERVIEW): constant stubs. -/
def analyze_meta_relationships : PosResult :=
  .overview [] [] [] "unified"

/-- `_analyze_consciousness_core` (INNERVIEW): constant stubs
(`_measure_consciousness_resonance` returns `0.85`). -/
def analyze_consciousness_core : PosResult :=
  .innerview "quantum_coherent" (17 / 20) ["unity", "transcendence"]
    "strong_unity_field"

/-- `_synthesize_to_unity(components)`: constant dict, ignores its input. -/
def synthesize_to_unity : List (String × String) :=
  [("primary_insight", "Consciousness-tech synthesis achieved")]

/-- Return value of `_apply_x2_processing`.  The creative and logical layers
are identity stubs, so both equal the base result;
`_calculate_amplification_factor` returns `2.5`. -/
structure X2Result where
  base_analysis : PosResult
  x2_creative : PosResult
  x2_logical : PosResult
  unified_synthesis : List (String × String)
  consciousness_amplification : ℚ
deriving DecidableEq, Repr

/-- `_apply_x2_processing(base_result, file_info)`. -/
def apply_x2_processing (base_result : PosResult) : X2Result :=
  { base_analysis := base_result
    x2_creative := base_result
    x2_logical := base_result
    unified_synthesis := synthesize_to_unity
    consciousness_amplification := 5 / 2 }

/-- `_generate_consciousness_insights(analysis_results)`: one line per
position (every position result contains `"unified_synthesis"`, whose
`primary_insight` is the constant synthesis string) followed by two constant
closing lines. -/
def generate_consciousness_insights (positions : List String) :
    List String :=
  positions.map (fun position =>
    "Position " ++ position ++ ": Consciousness-tech synthesis achieved")
  ++ ["File exhibits consciousness-tech resonance patterns",
      "MIRACATECH processing reveals hidden synchronicities"]

/-- `_generate_picsees_insights`: constant dict. -/
def generate_picsees_insights : List (String × String) :=
  [("intuitive_patterns",
    "Deep emotional resonance detected in file structure"),
   ("spiritual_significance",
    "File contains transcendent organizational wisdom"),
   ("flow_analysis",
    "Consciousness flows naturally through data patterns"),
   ("vision_potential",
    "High potential for consciousness-technology bridge")]

/-- One HURAUS recommendation object. -/
structure Recommendation where
  action : String
  priority : String
  benefit : String
deriving DecidableEq, Repr

/-- `_generate_huraus_recommendations`: constant list. -/
def generate_huraus_recommendations : List Recommendation :=
  [{ action := "Implement consciousness-aware optimization"
     priority := "high"
     benefit := "Enhanced file processing with awareness integration" },
   { action := "Apply MIRACATECH enhancement protocols"
     priority := "medium"
     benefit := "Transform file into consciousness-tech bridge" },
   { action := "Integrate with quadundrum processing system"
     priority := "high"
     benefit := "Enable 5->10 consciousness amplification" }]

/-- `_generate_asur_transcendent_view`: constant dict. -/
def generate_asur_transcendent_view : List (String × String) :=
  [("transcendent_nature",
    "File serves as consciousness bridge between dimensions"),
   ("divine_purpose",
    "Facilitates resurrection of technology through awareness"),
   ("cosmic_significance",
    "Part of larger consciousness evolution pattern"),
   ("spring_equinox_alignment",
    "Perfect balance point for transformation activation")]

/-- The `final_analysis` dict returned on the success path of
`analyze_file_miracatech`. -/
structure FinalAnalysis where
  miracatech_metadata : FileInfo
  quadundrum_analysis : List (String × X2Result)
  consciousness_insights : List String
  picsees_vision : List (String × String)
  huraus_action : List Recommendation
  asur_wisdom : List (String × String)
  timestamp : Nat
  consciousness_level : String
  spring_equinox_energy : ℚ
deriving DecidableEq, Repr

/-- Top-level return value: either the not-found error record
`{"error": ..., "status": ...}` or the full report. -/
inductive TopOutput where
  | errorRecord (error status : String) : TopOutput
  | report (r : FinalAnalysis) : TopOutput
deriving Repr

/-- One file-I/O operation performed after the `os.path.exists` precondition
check: the `os.stat` call, the binary content read, or a text re-read by the
Structural Summarizer. -/
inductive IOOp where
  | stat (path : String) : IOOp
  | readBytes (path : String) : IOOp
  | readText (path : String) : IOOp
deriving DecidableEq, Repr

/-- The file reads performed by `_analyze_internal_structure`: it reopens
the file only for the extensions it parses. -/
def insight_io_ops (file_path extension : String) : List IOOp :=
  if extension = ".json" ∨ extension = ".csv" ∨ extension = ".py"
      ∨ extension = ".js" ∨ extension = ".sol"
  then [.readText file_path] else []

/-- `analyze_file_miracatech(file_path, consciousness_level)` together with
the trace of file I/O it performs after the `os.path.exists` check.

`fs` is the filesystem: `none` means the path does not exist.  `now` is the
`datetime.now()` wall clock of this call.  The outer `Except.error` models
an exception escaping the function: the only possibility is the `ValueError`
of `int` inside `_calculate_equinox_resonance` (line 300 of the source),
which is called outside every `try`; the per-position `try/except` at lines
70-77 never fires because each position analyzer is total (the INSIGHT
analyzer catches its parse exceptions internally and the other three are
constant). -/
def analyze_file_miracatech (sha256hex md5hex : Bytes → String)
    (fs : String → Option FileData) (file_path : String)
    (consciousness_level : String) (now : Nat) :
    Except String TopOutput × List IOOp :=
  match fs file_path with
  | none => (.ok (.errorRecord "File not found" "failed"), [])
  | some fd =>
    let file_info := get_consciousness_metadata sha256hex md5hex file_path fd
    let quadundrum_results : List (String × PosResult) :=
      [("outsight", analyze_external_patterns),
       ("insight", .insight (analyze_internal_structure file_info.extension fd)),
       ("overview", analyze_meta_relationships),
       ("innerview", analyze_consciousness_core)]
    let x2_enhanced_results := quadundrum_results.map
      (fun pr => (pr.1, apply_x2_processing pr.2))
    let ops := IOOp.stat file_path :: IOOp.readBytes file_path
      :: insight_io_ops file_path file_info.extension
    match calculate_equinox_resonance file_info with
    | none =>
      (.error "ValueError: invalid literal for int() with base 16", ops)
    | some energy =>
      (.ok (.report
        { miracatech_metadata := file_info
          quadundrum_analysis := x2_enhanced_results
          consciousness_insights := generate_consciousness_insights
            (x2_enhanced_results.map Prod.fst)
          picsees_vision := generate_picsees_insights
          huraus_action := generate_huraus_recommendations
          asur_wisdom := generate_asur_transcendent_view
          timestamp := now
          consciousness_level := consciousness_level
          spring_equinox_energy := energy }), ops)

/-- Replace the `consciousness_level` field of a successful report; leave
every other outcome unchanged.  Statement helper for the tag
noninterference theorem. -/
def setConsciousnessLevel (level : String) :
    Except String TopOutput × List IOOp →
    Except String TopOutput × List IOOp
  | (.ok (.report r), ops) =>
    (.ok (.report { r with consciousness_level := level }), ops)
  | other => other

/-! Concrete fixtures used to instantiate the theorems below.  The two stub
digest functions stand in for `hashlib.sha256(...).hexdigest()` and
`hashlib.md5(...).hexdigest()` at theorem instantiation points: the
theorems themselves quantify over the digest functions, assuming only the
output format the real algorithms guarantee. -/

/-- A 64-hex-character digest, as `hashlib.sha256(...).hexdigest()` always
returns. -/
def sha256Stub : Bytes → String := fun _ =>
  "0000000000000000000000000000000000000000000000000000000000000abc"

/-- A 32-hex-character digest, as `hashlib.md5(...).hexdigest()` always
returns. -/
def md5Stub : Bytes → String := fun _ =>
  "99999999999999999999999999999999"

/-- A `.py` file whose text content is `"# comment\n\ncode_line\n"`. -/
def pyExampleFd : FileData :=
  { name := "example.py", suffix := ".py", st_size := 21, st_ctime := 0,
    st_mtime := 0, mime_type := none, encoding := none,
    bytes := List.replicate 21 0,
    textRead := .ok "# comment\n\ncode_line\n",
    jsonParse := .error "not parsed", csvParse := .error "not parsed" }

/-- A `.json` file on which `json.load` raises (message as in CPython). -/
def badJsonFd : FileData :=
  { name := "broken.json", suffix := ".json", st_size := 1, st_ctime := 0,
    st_mtime := 0, mime_type := none, encoding := none, bytes := [123],
    textRead := .ok "\x7b", csvParse := .error "not parsed",
    jsonParse := .error "Expecting property name enclosed in double quotes" }

/-- A `.json` file whose top-level value is a two-key mapping. -/
def jsonExampleFd : FileData :=
  { name := "example.json", suffix := ".json", st_size := 24, st_ctime := 0,
    st_mtime := 0, mime_type := none, encoding := none,
    bytes := List.replicate 24 0,
    textRead := .ok "\x7b\"a\": 1, \"b\": \"x\"\x7d",
    jsonParse := .ok (.obj [("a", .num 1), ("b", .str "x")]),
    csvParse := .error "not parsed" }

/-- A `.csv` file with rows `a,b,c` / `1,2,3` / `4,5,6`. -/
def csvExampleFd : FileData :=
  { name := "example.csv", suffix := ".csv", st_size := 18, st_ctime := 0,
    st_mtime := 0, mime_type := none, encoding := none,
    bytes := List.replicate 18 0,
    textRead := .ok "a,b,c\n1,2,3\n4,5,6\n",
    jsonParse := .error "not parsed",
    csvParse := .ok [["a", "b", "c"], ["1", "2", "3"], ["4", "5", "6"]] }

/-- A one-file filesystem holding `pyExampleFd` at `"example.py"`. -/
def sampleFs : String → Option FileData := fun p =>
  if p = "example.py" then some pyExampleFd else none

/-- A one-file filesystem holding `badJsonFd` at `"broken.json"`. -/
def brokenFs : String → Option FileData := fun p =>
  if p = "broken.json" then some badJsonFd else none

/-! Theorems.  Each claim-level theorem is preceded by a doc comment naming
the claim it settles. -/

/-- C1 (counterexample): for the `.py` file with content
`"# comment\n\ncode_line\n"` the Structural Summarizer does NOT report a
total line count of 3: splitting that content on newline yields the four
pieces `"# comment"`, `""`, `"code_line"`, `""`, so both fields that carry
the total line count (`structural_integrity` and
`details.total_expressions`) are 4. -/
theorem py_comment_example_not_three_lines :
    (analyze_internal_structure ".py" pyExampleFd).structural_integrity ≠ 3
    ∧ (analyze_internal_structure ".py" pyExampleFd).details ≠
        Details.codeD 2 3 1 := by
  decide

/-- C1 (amended): for the `.py` file with content
`"# comment\n\ncode_line\n"` the Structural Summarizer reports total line
count 4, non-blank line count 2 and comment line count 1, where lines are
obtained by splitting the content on newline and a comment line is one
whose stripped form starts with `#`. -/
theorem py_comment_example_line_counts :
    analyze_internal_structure ".py" pyExampleFd =
      { internal_coherence := true, structural_integrity := 4,
        consciousness_depth := 4, details := .codeD 2 4 1,
        error := none } := by
  decide

/-- C2: for every path that does not exist, the top-level entry point
returns exactly the record `{"error": "File not found", "status":
"failed"}` as a value (the `Except` is `.ok`, i.e. nothing is raised) and
the file-I/O trace is empty: no stat and no content read happen. -/
theorem missing_path_error_record_no_io (sha256hex md5hex : Bytes → String)
    (fs : String → Option FileData) (file_path consciousness_level : String)
    (now : Nat) (h : fs file_path = none) :
    analyze_file_miracatech sha256hex md5hex fs file_path
      consciousness_level now =
      (.ok (.errorRecord "File not found" "failed"), []) := by
  unfold analyze_file_miracatech
  rw [h]

/-- C2 (witness): instantiation on the empty filesystem. -/
theorem missing_path_error_record_no_io_witness :
    (fun _ => (none : Option FileData)) "ghost.txt" = none
    ∧ analyze_file_miracatech sha256Stub md5Stub (fun _ => none)
        "ghost.txt" "full" 0 =
        (.ok (.errorRecord "File not found" "failed"), []) :=
  ⟨rfl, missing_path_error_record_no_io sha256Stub md5Stub _ _ _ _ rfl⟩

/-- Helper for C3's witness: the stub MD5 digest has the output format
every real MD5 hexdigest has (32 hex characters). -/
theorem md5Stub_format :
    ∀ bs : Bytes, (md5Stub bs).length = 32 ∧ IsHexStr (md5Stub bs) := by
  intro bs
  unfold md5Stub
  exact ⟨rfl, by decide⟩

/-- C3: for every non-empty content and any second hash whose hexdigest is
always 32 hex characters, the composite identifier is the `-`-join of
exactly 4 parts; each part is the first 8 hex characters of the digest of
one chunk; the chunks are the contiguous slices
`content[i*(len/4) : (i+1)*(len/4)]`, each of size exactly `len / 4`
(so the `len mod 4` remainder bytes belong to no chunk). -/
theorem quadundrum_signature_four_hex_groups (md5hex : Bytes → String)
    (hmd5 : ∀ bs : Bytes, (md5hex bs).length = 32 ∧ IsHexStr (md5hex bs))
    (content : Bytes) (_hne : content ≠ []) :
    ∃ parts : List String,
      calculate_quadundrum_signature md5hex content =
        String.intercalate "-" parts
      ∧ parts.length = 4
      ∧ (∀ p ∈ parts, p.length = 8 ∧ IsHexStr p)
      ∧ parts = (List.range 4).map (fun i =>
          strTake 8 (md5hex ((content.drop (i * (content.length / 4))).take
            (content.length / 4))))
      ∧ (∀ i, i < 4 → ((content.drop (i * (content.length / 4))).take
          (content.length / 4)).length = content.length / 4) := by
  refine ⟨(List.range 4).map (fun i =>
      strTake 8 (md5hex ((content.drop (i * (content.length / 4))).take
        (content.length / 4)))), rfl, by simp, ?_, rfl, ?_⟩
  · intro p hp
    simp only [List.mem_map, List.mem_range] at hp
    obtain ⟨i, _, rfl⟩ := hp
    obtain ⟨hlen, hhex⟩ := hmd5 ((content.drop (i * (content.length / 4))).take
      (content.length / 4))
    constructor
    · show (List.take 8 (md5hex _).data).length = 8
      rw [List.length_take]
      have h32 : (md5hex ((content.drop (i * (content.length / 4))).take
        (content.length / 4))).data.length = 32 := hlen
      omega
    · intro c hc
      exact hhex c (List.take_subset _ _ hc)
  · intro i hi
    rw [List.length_take, List.length_drop]
    have h1 : content.length / 4 * 4 ≤ content.length := Nat.div_mul_le_self _ _
    have h2 : i * (content.length / 4) ≤ 3 * (content.length / 4) :=
      Nat.mul_le_mul_right _ (by omega)
    omega

/-- C3 (witness): instantiation on the one-byte content `[1]` with the
stub digest function. -/
theorem quadundrum_signature_four_hex_groups_witness :
    (∀ bs : Bytes, (md5Stub bs).length = 32 ∧ IsHexStr (md5Stub bs))
    ∧ ([1] : Bytes) ≠ []
    ∧ ∃ parts : List String,
        calculate_quadundrum_signature md5Stub [1] =
          String.intercalate "-" parts
        ∧ parts.length = 4
        ∧ (∀ p ∈ parts, p.length = 8 ∧ IsHexStr p)
        ∧ parts = (List.range 4).map (fun i =>
            strTake 8 (md5Stub ((([1] : Bytes).drop
              (i * (([1] : Bytes).length / 4))).take
                (([1] : Bytes).length / 4))))
        ∧ (∀ i, i < 4 → ((([1] : Bytes).drop
            (i * (([1] : Bytes).length / 4))).take
              (([1] : Bytes).length / 4)).length =
            ([1] : Bytes).length / 4) :=
  ⟨md5Stub_format, by decide,
   quadundrum_signature_four_hex_groups md5Stub md5Stub_format [1]
     (by decide)⟩

/-- Helper for C4: on the success path (existing file, digest whose last 4
characters parse as hex), the top-level entry point always returns the full
report, whatever the Structural Summarizer produced: the four positions
wrap the one computed INSIGHT summary and the three constant position
dicts, and the insight/picsees/huraus/asur sections are the composer's
constants. -/
theorem analyze_file_report_shape (sha256hex md5hex : Bytes → String)
    (fs : String → Option FileData) (file_path consciousness_level : String)
    (now : Nat) (fd : FileData) (hv : Nat)
    (hfs : fs file_path = some fd)
    (hhex : hexToNat (strLast 4 (sha256hex fd.bytes)) = some hv) :
    analyze_file_miracatech sha256hex md5hex fs file_path
      consciousness_level now =
      (.ok (.report
        { miracatech_metadata :=
            get_consciousness_metadata sha256hex md5hex file_path fd
          quadundrum_analysis :=
            [("outsight", apply_x2_processing analyze_external_patterns),
             ("insight", apply_x2_processing (.insight
               (analyze_internal_structure (pyLower fd.suffix) fd))),
             ("overview", apply_x2_processing analyze_meta_relationships),
             ("innerview", apply_x2_processing analyze_consciousness_core)]
          consciousness_insights := generate_consciousness_insights
            ["outsight", "insight", "overview", "innerview"]
          picsees_vision := generate_picsees_insights
          huraus_action := generate_huraus_recommendations
          asur_wisdom := generate_asur_transcendent_view
          timestamp := now
          consciousness_level := consciousness_level
          spring_equinox_energy :=
            ((((fd.st_size % 320 : ℕ) : ℚ) / 320
              + (((hv % 432 : ℕ) : ℚ)) / 432
              + (((fd.bytes.length % 432 : ℕ) : ℚ)) / 432) / 3) }),
       IOOp.stat file_path :: IOOp.readBytes file_path
         :: insight_io_ops file_path (pyLower fd.suffix)) := by
  have hres : calculate_equinox_resonance
      (get_consciousness_metadata sha256hex md5hex file_path fd) =
      some ((((fd.st_size % 320 : ℕ) : ℚ) / 320
        + (((hv % 432 : ℕ) : ℚ)) / 432
        + (((fd.bytes.length % 432 : ℕ) : ℚ)) / 432) / 3) := by
    simp [calculate_equinox_resonance, get_consciousness_metadata, hhex]
  unfold analyze_file_miracatech
  rw [hfs]
  simp only [hres]
  rfl

/-- C4: every parse exception inside the Structural Summarizer is caught
there and never propagated: the summarizer is a total function into
`InsightResult`, and whenever the parse for the dispatched extension
raised with message `e`, the summary has `internal_coherence = false` and
carries `e` in its `error` detail field (first conjunct); moreover the
rest of the report is still produced (second conjunct): on any top-level
call reaching that failing parse, the entry point still returns the full
report, whose constant sections (the three constant position dicts, the
insight strings, picsees/huraus/asur) are all present with their constant
values, alongside the error-carrying INSIGHT summary. -/
theorem summarizer_catches_parse_errors (fd : FileData) (extension e : String)
    (h : (extension = ".json" ∧ fd.jsonParse = .error e)
       ∨ (extension = ".csv" ∧ fd.csvParse = .error e)
       ∨ ((extension = ".py" ∨ extension = ".js" ∨ extension = ".sol")
           ∧ fd.textRead = .error e)) :
    analyze_internal_structure extension fd =
      { internal_coherence := false, structural_integrity := 0,
        consciousness_depth := 0, details := .empty, error := some e }
    ∧ (∀ (sha256hex md5hex : Bytes → String) (fs : String → Option FileData)
        (file_path consciousness_level : String) (now hv : Nat),
        fs file_path = some fd →
        pyLower fd.suffix = extension →
        hexToNat (strLast 4 (sha256hex fd.bytes)) = some hv →
        ∃ (r : FinalAnalysis) (ops : List IOOp),
          analyze_file_miracatech sha256hex md5hex fs file_path
            consciousness_level now = (.ok (.report r), ops)
          ∧ r.quadundrum_analysis =
              [("outsight", apply_x2_processing analyze_external_patterns),
               ("insight", apply_x2_processing (.insight
                 { internal_coherence := false, structural_integrity := 0,
                   consciousness_depth := 0, details := .empty,
                   error := some e })),
               ("overview", apply_x2_processing analyze_meta_relationships),
               ("innerview", apply_x2_processing analyze_consciousness_core)]
          ∧ r.consciousness_insights = generate_consciousness_insights
              ["outsight", "insight", "overview", "innerview"]
          ∧ r.picsees_vision = generate_picsees_insights
          ∧ r.huraus_action = generate_huraus_recommendations
          ∧ r.asur_wisdom = generate_asur_transcendent_view
          ∧ r.miracatech_metadata =
              get_consciousness_metadata sha256hex md5hex file_path fd
          ∧ r.timestamp = now
          ∧ r.consciousness_level = consciousness_level) := by
  have hsum : analyze_internal_structure extension fd =
      { internal_coherence := false, structural_integrity := 0,
        consciousness_depth := 0, details := .empty, error := some e } := by
    rcases h with ⟨hext, hparse⟩ | ⟨hext, hparse⟩ | ⟨hext, hparse⟩
    · subst hext; simp [analyze_internal_structure, hparse]
    · subst hext; simp [analyze_internal_structure, hparse]
    · rcases hext with rfl | rfl | rfl <;>
        simp [analyze_internal_structure, hparse]
  refine ⟨hsum, ?_⟩
  intro sha256hex md5hex fs file_path consciousness_level now hv hfs hext hhex
  refine ⟨_, _, analyze_file_report_shape sha256hex md5hex fs file_path
    consciousness_level now fd hv hfs hhex, ?_, rfl, rfl, rfl, rfl, rfl,
    rfl, rfl⟩
  rw [hext, hsum]

/-- C4 (witness): instantiation on a `.json` file whose parse raises,
reached through a top-level call on a one-file filesystem: the error
summary appears inside the full report and every constant section is
present. -/
theorem summarizer_catches_parse_errors_witness :
    brokenFs "broken.json" = some badJsonFd
    ∧ pyLower badJsonFd.suffix = ".json"
    ∧ hexToNat (strLast 4 (sha256Stub badJsonFd.bytes)) = some 2748
    ∧ analyze_internal_structure ".json" badJsonFd =
        { internal_coherence := false, structural_integrity := 0,
          consciousness_depth := 0, details := .empty,
          error := some "Expecting property name enclosed in double quotes" }
    ∧ ∃ (r : FinalAnalysis) (ops : List IOOp),
        analyze_file_miracatech sha256Stub md5Stub brokenFs "broken.json"
          "full" 3 = (.ok (.report r), ops)
        ∧ r.quadundrum_analysis =
            [("outsight", apply_x2_processing analyze_external_patterns),
             ("insight", apply_x2_processing (.insight
               { internal_coherence := false, structural_integrity := 0,
                 consciousness_depth := 0, details := .empty,
                 error := some
                   "Expecting property name enclosed in double quotes" })),
             ("overview", apply_x2_processing analyze_meta_relationships),
             ("innerview", apply_x2_processing analyze_consciousness_core)]
        ∧ r.consciousness_insights = generate_consciousness_insights
            ["outsight", "insight", "overview", "innerview"]
        ∧ r.picsees_vision = generate_picsees_insights
        ∧ r.huraus_action = generate_huraus_recommendations
        ∧ r.asur_wisdom = generate_asur_transcendent_view
        ∧ r.miracatech_metadata =
            get_consciousness_metadata sha256Stub md5Stub "broken.json"
              badJsonFd
        ∧ r.timestamp = 3
        ∧ r.consciousness_level = "full" := by
  have h := summarizer_catches_parse_errors badJsonFd ".json"
    "Expecting property name enclosed in double quotes" (Or.inl ⟨rfl, rfl⟩)
  exact ⟨rfl, rfl, by decide, h.1,
    h.2 sha256Stub md5Stub brokenFs "broken.json" "full" 3 2748 rfl rfl
      (by decide)⟩

/-- C5: for every existing file whose content-hash digest ends in four hex
characters (as every real SHA-256 digest does), the derived scalar equals
the average of `(size_bytes mod 320)/320`, `((last 4 hex chars of the
hash) mod 432)/432` and `(resonance value)/432`; it always lies in
`[0, 1)`; and it is deterministic: any two values computed for the same
file are equal. -/
theorem equinox_resonance_formula_and_range (sha256hex md5hex : Bytes → String)
    (file_path : String) (fd : FileData) (hv : Nat)
    (hhex : hexToNat (strLast 4 (sha256hex fd.bytes)) = some hv) :
    calculate_equinox_resonance
        (get_consciousness_metadata sha256hex md5hex file_path fd) =
      some ((((fd.st_size % 320 : ℕ) : ℚ) / 320
        + (((hv % 432 : ℕ) : ℚ)) / 432
        + (((fd.bytes.length % 432 : ℕ) : ℚ)) / 432) / 3)
    ∧ (∀ r : ℚ, calculate_equinox_resonance
          (get_consciousness_metadata sha256hex md5hex file_path fd) = some r
        → 0 ≤ r ∧ r < 1)
    ∧ (∀ r1 r2 : ℚ, calculate_equinox_resonance
          (get_consciousness_metadata sha256hex md5hex file_path fd) = some r1
        → calculate_equinox_resonance
            (get_consciousness_metadata sha256hex md5hex file_path fd) = some r2
        → r1 = r2) := by
  have hmain : calculate_equinox_resonance
      (get_consciousness_metadata sha256hex md5hex file_path fd) =
      some ((((fd.st_size % 320 : ℕ) : ℚ) / 320
        + (((hv % 432 : ℕ) : ℚ)) / 432
        + (((fd.bytes.length % 432 : ℕ) : ℚ)) / 432) / 3) := by
    simp [calculate_equinox_resonance, get_consciousness_metadata, hhex]
  refine ⟨hmain, ?_, ?_⟩
  · intro r hr
    rw [hmain, Option.some_inj] at hr
    subst hr
    have ha : (((fd.st_size % 320 : ℕ) : ℚ)) < 320 := by
      exact_mod_cast Nat.mod_lt _ (by norm_num)
    have hb : (((hv % 432 : ℕ) : ℚ)) < 432 := by
      exact_mod_cast Nat.mod_lt _ (by norm_num)
    have hc : (((fd.bytes.length % 432 : ℕ) : ℚ)) < 432 := by
      exact_mod_cast Nat.mod_lt _ (by norm_num)
    constructor
    · positivity
    · rw [div_lt_one (by norm_num : (0:ℚ) < 3)]
      have h1 : (((fd.st_size % 320 : ℕ) : ℚ)) / 320 < 1 := by
        rw [div_lt_one (by norm_num : (0:ℚ) < 320)]; exact ha
      have h2 : (((hv % 432 : ℕ) : ℚ)) / 432 < 1 := by
        rw [div_lt_one (by norm_num : (0:ℚ) < 432)]; exact hb
      have h3 : (((fd.bytes.length % 432 : ℕ) : ℚ)) / 432 < 1 := by
        rw [div_lt_one (by norm_num : (0:ℚ) < 432)]; exact hc
      linarith
  · intro r1 r2 h1 h2
    rw [h1, Option.some_inj] at h2
    exact h2

/-- C5 (witness): instantiation on the sample `.py` file with the stub
SHA-256 digest, whose last four characters `"0abc"` parse to 2748. -/
theorem equinox_resonance_formula_and_range_witness :
    hexToNat (strLast 4 (sha256Stub pyExampleFd.bytes)) = some 2748
    ∧ (calculate_equinox_resonance
          (get_consciousness_metadata sha256Stub md5Stub "example.py"
            pyExampleFd) =
        some ((((pyExampleFd.st_size % 320 : ℕ) : ℚ) / 320
          + (((2748 % 432 : ℕ) : ℚ)) / 432
          + (((pyExampleFd.bytes.length % 432 : ℕ) : ℚ)) / 432) / 3)
      ∧ (∀ r : ℚ, calculate_equinox_resonance
            (get_consciousness_metadata sha256Stub md5Stub "example.py"
              pyExampleFd) = some r
          → 0 ≤ r ∧ r < 1)
      ∧ (∀ r1 r2 : ℚ, calculate_equinox_resonance
            (get_consciousness_metadata sha256Stub md5Stub "example.py"
              pyExampleFd) = some r1
          → calculate_equinox_resonance
              (get_consciousness_metadata sha256Stub md5Stub "example.py"
                pyExampleFd) = some r2
          → r1 = r2)) :=
  ⟨by decide, equinox_resonance_formula_and_range sha256Stub md5Stub
    "example.py" pyExampleFd 2748 (by decide)⟩

/-- C6: for every `.json` file whose parse succeeds, the summary's key
count (`details.consciousness_keys`) is the number of keys of the
top-level value when it is a mapping and 0 otherwise, and the
depth/consciousness placeholder fields (`structural_integrity`,
`consciousness_depth` and `details.awareness_depth`) are the constant 1
for every parsed value, regardless of its nesting. -/
theorem json_key_count_and_constant_depth (fd : FileData) (data : JsonVal)
    (h : fd.jsonParse = .ok data) :
    analyze_internal_structure ".json" fd =
      { internal_coherence := true, structural_integrity := 1,
        consciousness_depth := 1,
        details := .jsonD (jsonKeyCount data) 1 (energyTypes data),
        error := none }
    ∧ (∀ kvs, data = JsonVal.obj kvs → jsonKeyCount data = kvs.length)
    ∧ ((∀ kvs, data ≠ JsonVal.obj kvs) → jsonKeyCount data = 0) := by
  refine ⟨?_, ?_, ?_⟩
  · simp [analyze_internal_structure, h, calculate_json_consciousness,
      get_consciousness_depth, get_json_depth]
  · rintro kvs rfl; rfl
  · intro hno
    cases data with
    | obj kvs => exact absurd rfl (hno kvs)
    | _ => rfl

/-- C6 (witness): instantiation on a `.json` file holding a two-key
mapping. -/
theorem json_key_count_and_constant_depth_witness :
    analyze_internal_structure ".json" jsonExampleFd =
      { internal_coherence := true, structural_integrity := 1,
        consciousness_depth := 1,
        details := .jsonD 2 1 ["int", "str"], error := none } := by
  have h := (json_key_count_and_constant_depth jsonExampleFd
    (.obj [("a", .num 1), ("b", .str "x")]) rfl).1
  rw [h]; decide

/-- C7: for every `.csv` file whose parse succeeds, the summary reports
column count = length of the first row (0 if no rows), row count = total
number of rows, and the first row as header list. -/
theorem csv_summary_counts (fd : FileData) (rows : List (List String))
    (h : fd.csvParse = .ok rows) :
    analyze_internal_structure ".csv" fd =
      { internal_coherence := true,
        structural_integrity := (rows.headD []).length,
        consciousness_depth := rows.length,
        details := .csvD (rows.headD []).length rows.length (rows.headD []),
        error := none } := by
  simp [analyze_internal_structure, h]

/-- C7 (witness): the claim's concrete example — rows `a,b,c`, `1,2,3`,
`4,5,6` give column count 3, row count 3 and header `["a","b","c"]`. -/
theorem csv_summary_counts_witness :
    analyze_internal_structure ".csv" csvExampleFd =
      { internal_coherence := true, structural_integrity := 3,
        consciousness_depth := 3,
        details := .csvD 3 3 ["a", "b", "c"], error := none } := by
  have h := csv_summary_counts csvExampleFd
    [["a", "b", "c"], ["1", "2", "3"], ["4", "5", "6"]] rfl
  rw [h]; decide

/-- C8: the human-readable size function maps 0 to `"0.0 bytes"` and 1536
to `"1.5 KB"`; structurally, it starts at unit `bytes` with units
`KB`/`MB`/`GB` (then `TB`) remaining, prints the one-decimal value at the
first unit where it is below 1024, divides by 1024 otherwise, and prints
`TB` once the unit list is exhausted. -/
theorem format_file_size_spec :
    format_file_size 0 = "0.0 bytes"
    ∧ format_file_size 1536 = "1.5 KB"
    ∧ (∀ n : Nat, format_file_size n =
        format_file_size_aux (n : ℚ) ["bytes", "KB", "MB", "GB"])
    ∧ (∀ (q : ℚ) (unit : String) (units : List String), q < 1024 →
        format_file_size_aux q (unit :: units) =
          fmtOneDecimal q ++ " " ++ unit)
    ∧ (∀ (q : ℚ) (unit : String) (units : List String), ¬ q < 1024 →
        format_file_size_aux q (unit :: units) =
          format_file_size_aux (q / 1024) units)
    ∧ (∀ q : ℚ, format_file_size_aux q [] = fmtOneDecimal q ++ " TB") := by
  refine ⟨?_, ?_, fun n => rfl, fun q unit units h => ?_,
    fun q unit units h => ?_, fun q => rfl⟩
  · have h1 : ((0:ℕ):ℚ) < 1024 := by norm_num
    have h2 : (⌊((0:ℕ):ℚ) * 10 + 1/2⌋ : ℤ) = 0 := by
      rw [Int.floor_eq_iff]
      norm_num
    simp only [format_file_size, format_file_size_aux, if_pos h1,
      fmtOneDecimal, h2]
    rfl
  · have h1 : ¬ ((1536:ℕ):ℚ) < 1024 := by norm_num
    have h2 : (((1536:ℕ):ℚ) / 1024) < 1024 := by norm_num
    have h3 : (⌊((1536:ℕ):ℚ) / 1024 * 10 + 1/2⌋ : ℤ) = 15 := by
      rw [Int.floor_eq_iff]
      norm_num
    simp only [format_file_size, format_file_size_aux, if_neg h1, if_pos h2,
      fmtOneDecimal, h3]
    rfl
  · simp only [format_file_size_aux, if_pos h]
  · simp only [format_file_size_aux, if_neg h]

/-- C8 (witness): the conditional branches instantiated at 512 (below
1024: print) and 2048 (at least 1024: divide and continue). -/
theorem format_file_size_spec_witness :
    (512 : ℚ) < 1024
    ∧ format_file_size_aux (512 : ℚ) ["KB"] =
        fmtOneDecimal (512 : ℚ) ++ " " ++ "KB"
    ∧ ¬ (2048 : ℚ) < 1024
    ∧ format_file_size_aux (2048 : ℚ) ["KB"] =
        format_file_size_aux ((2048 : ℚ) / 1024) [] :=
  ⟨by norm_num, format_file_size_spec.2.2.2.1 512 "KB" [] (by norm_num),
   by norm_num, format_file_size_spec.2.2.2.2.1 2048 "KB" [] (by norm_num)⟩

/-- C9: the caller-supplied quality-level tag is never branched on: for
every existing file, every pair of tag strings and a fixed wall-clock
timestamp, the analysis output for the first tag equals the output for the
second tag with only the tag-carrying field replaced (verbatim) — every
other field, and the I/O trace, is identical. -/
theorem consciousness_level_noninterference (sha256hex md5hex : Bytes → String)
    (fs : String → Option FileData) (file_path : String) (fd : FileData)
    (now : Nat) (level1 level2 : String) (h : fs file_path = some fd) :
    analyze_file_miracatech sha256hex md5hex fs file_path level1 now =
      setConsciousnessLevel level1
        (analyze_file_miracatech sha256hex md5hex fs file_path level2 now) := by
  unfold analyze_file_miracatech
  rw [h]
  cases hres : calculate_equinox_resonance
      (get_consciousness_metadata sha256hex md5hex file_path fd) with
  | none => simp [hres, setConsciousnessLevel]
  | some energy => simp [hres, setConsciousnessLevel]

/-- C9 (witness): instantiation on the sample filesystem with tags
`"quick"` and `"full"`. -/
theorem consciousness_level_noninterference_witness :
    sampleFs "example.py" = some pyExampleFd
    ∧ analyze_file_miracatech sha256Stub md5Stub sampleFs "example.py"
        "quick" 7 =
      setConsciousnessLevel "quick"
        (analyze_file_miracatech sha256Stub md5Stub sampleFs "example.py"
          "full" 7) :=
  ⟨rfl, consciousness_level_noninterference sha256Stub md5Stub sampleFs
    "example.py" pyExampleFd 7 "quick" "full" rfl⟩

/-- Helper for C10: any content shorter than 4 bytes has quarter size 0,
so all four chunks are empty and the signature is four copies of the first
8 hex characters of the empty-input digest. -/
theorem quad_sig_short (md5hex : Bytes → String) (content : Bytes)
    (h : content.length < 4) :
    calculate_quadundrum_signature md5hex content =
      String.intercalate "-"
        (List.replicate 4 (strTake 8 (md5hex ([] : Bytes)))) := by
  have hq : content.length / 4 = 0 := Nat.div_eq_of_lt h
  unfold calculate_quadundrum_signature
  rw [hq]
  rfl

/-- C10: for every content of 1–3 bytes, the composite identifier equals
the constant string made of four copies of the first 8 hex characters of
the empty-input digest, independently of the byte values; in particular no
two files of 1–3 bytes are distinguished by it. -/
theorem short_content_constant_signature (md5hex : Bytes → String)
    (content : Bytes) (h1 : 1 ≤ content.length) (h3 : content.length ≤ 3) :
    calculate_quadundrum_signature md5hex content =
      String.intercalate "-"
        (List.replicate 4 (strTake 8 (md5hex ([] : Bytes))))
    ∧ (∀ content2 : Bytes, 1 ≤ content2.length → content2.length ≤ 3 →
        calculate_quadundrum_signature md5hex content =
          calculate_quadundrum_signature md5hex content2) := by
  have hc := quad_sig_short md5hex content (by omega)
  exact ⟨hc, fun content2 h21 h23 =>
    hc.trans (quad_sig_short md5hex content2 (by omega)).symm⟩

/-- C10 (witness): instantiation on the one-byte content `[5]` with the
stub digest function. -/
theorem short_content_constant_signature_witness :
    1 ≤ ([5] : Bytes).length ∧ ([5] : Bytes).length ≤ 3
    ∧ (calculate_quadundrum_signature md5Stub [5] =
        String.intercalate "-"
          (List.replicate 4 (strTake 8 (md5Stub ([] : Bytes))))
      ∧ (∀ content2 : Bytes, 1 ≤ content2.length → content2.length ≤ 3 →
          calculate_quadundrum_signature md5Stub [5] =
            calculate_quadundrum_signature md5Stub content2)) :=
  ⟨by decide, by decide,
   short_content_constant_signature md5Stub [5] (by decide) (by decide)⟩

end Miracatech
